import Mathlib

/-!
Verification of the clinic records core (`src/frontend.py`) against its
natural-language specification.  The SQLite schema, the trigger
`trg_GeneratePatientCode`, and the write paths of the Tk frames
(`save_patient`, `save_appointment`, `save_bill`, `delete_bill`,
`add_item`, `export_data`, `import_data`, `insert_sample_data`) are
shallowly embedded as pure Lean functions over an explicit state record.
Monetary amounts (`DECIMAL(10,2)`) are modelled as exact integers, as the
spec directs in section 4.3 (exact decimal values, not binary floats).
-/

namespace Clinic

/-- The error taxonomy of spec section 7, restricted to the kinds the embedded
operations can actually produce.  `conflictError` stands for the
`sqlite3.IntegrityError` raised by a UNIQUE constraint (the spec classifies
unique-constraint violations as `ConflictError`); `validationError` is the
dialog-level input rejection; `operationalError` is
`sqlite3.OperationalError` (for example a statement against a missing
table). -/
inductive DbError where
  | conflictError : DbError
  | validationError : String → DbError
  | operationalError : String → DbError
deriving DecidableEq

/-- A row of `Patients` (schema in `ClinicDatabase.create_tables`).
`PatientCode` is nullable until the `AFTER INSERT` trigger fills it. -/
structure Patient where
  patientId : Nat
  patientCode : Option String
  firstName : String
  lastName : String
  dateOfBirth : String
  gender : String
  bloodGroup : Option String
  phoneNumber : Option String
  email : Option String
  address : Option String
  emergencyContactName : Option String
  emergencyContactPhone : Option String
  isActive : Bool
  createdDate : String
  modifiedDate : Option String
deriving DecidableEq

/-- A row of `Doctors`. -/
structure Doctor where
  doctorId : Nat
  userId : Nat
  specializationId : Nat
  departmentId : Option Nat
  licenseNumber : String
  yearsOfExperience : Option Int
  isActive : Bool
deriving DecidableEq

/-- A row of `Appointments`. -/
structure Appointment where
  appointmentId : Nat
  patientId : Nat
  doctorId : Nat
  appointmentDate : String
  appointmentTime : String
  statusId : Nat
  notes : Option String
  createdDate : String
deriving DecidableEq

/-- A row of `Bills`.  Amounts are exact integers (see the file comment). -/
structure Bill where
  billId : Nat
  appointmentId : Option Nat
  admissionId : Option Nat
  billDate : String
  totalAmount : Int
  paymentStatus : String
  paymentMethod : Option String
  paidAmount : Int
  createdBy : Option Nat
deriving DecidableEq

/-- A row of `BillItems`. -/
structure BillItem where
  billItemId : Nat
  billId : Nat
  serviceType : String
  description : String
  quantity : Int
  unitPrice : Int
  medicineId : Option Int
  testId : Option Int
deriving DecidableEq

/-- The persisted state the claims are about: the five core tables. -/
structure ClinicState where
  patients : List Patient
  doctors : List Doctor
  appointments : List Appointment
  bills : List Bill
  billItems : List BillItem
deriving DecidableEq

def ClinicState.empty : ClinicState := ⟨[], [], [], [], []⟩

/-- SQLite `INTEGER PRIMARY KEY AUTOINCREMENT`: next id is one past the
largest id ever used; over insert-only histories this is `max + 1`. -/
def nextId (ids : List Nat) : Nat := ids.foldr max 0 + 1

def nextAppointmentId (st : ClinicState) : Nat :=
  nextId (st.appointments.map (·.appointmentId))

def nextPatientId (st : ClinicState) : Nat :=
  nextId (st.patients.map (·.patientId))

def nextBillItemId (st : ClinicState) : Nat :=
  nextId (st.billItems.map (·.billItemId))

/-- The lookup SQLite performs for the schema constraint
`UNIQUE (DoctorID, AppointmentDate, AppointmentTime)` on `Appointments`. -/
def slotTaken (st : ClinicState) (doctorId : Nat) (dt tm : String) : Bool :=
  st.appointments.any fun a =>
    a.doctorId == doctorId && a.appointmentDate == dt && a.appointmentTime == tm

/-- Embedding of `AppointmentManagementFrame.save_appointment`, insert branch
(`src/frontend.py` lines 951-958).  The statement inserts the six supplied
columns; the only constraint SQLite enforces is the UNIQUE key above, whose
violation raises `sqlite3.IntegrityError`.  The declared FOREIGN KEY clauses
are inert because the connection never issues `PRAGMA foreign_keys = ON`
(`ClinicDatabase.__init__`, lines 14-17), and the Python code performs no
patient or doctor lookup of its own, so no existence or activity check
happens here. -/
def save_appointment_insert (st : ClinicState) (patientId doctorId : Nat)
    (dt tm : String) (statusId : Nat) (notes : Option String) (now : String) :
    Except DbError ClinicState :=
  if slotTaken st doctorId dt tm then
    .error .conflictError
  else
    .ok { st with appointments := st.appointments ++
            [{ appointmentId := nextAppointmentId st, patientId := patientId,
               doctorId := doctorId, appointmentDate := dt, appointmentTime := tm,
               statusId := statusId, notes := notes, createdDate := now }] }

/-- Observable database after `save_appointment`: on `sqlite3.Error` the
`except` branch only shows a dialog and `conn.commit()` is never reached, so
the stored data is unchanged. -/
def run_save_appointment_insert (st : ClinicState) (patientId doctorId : Nat)
    (dt tm : String) (statusId : Nat) (notes : Option String) (now : String) :
    ClinicState :=
  match save_appointment_insert st patientId doctorId dt tm statusId notes now with
  | .ok st2 => st2
  | .error _ => st

/-- The scheduling invariant: no two stored appointments share a
(doctor, date, time) slot.  Appointments are hard-deleted, so every stored
row is a non-deleted row. -/
def uniqueSlots (l : List Appointment) : Prop :=
  l.Pairwise fun a b =>
    ¬(a.doctorId = b.doctorId ∧ a.appointmentDate = b.appointmentDate ∧
      a.appointmentTime = b.appointmentTime)

theorem slotTaken_iff (st : ClinicState) (doctorId : Nat) (dt tm : String) :
    slotTaken st doctorId dt tm = true ↔
      ∃ a, a ∈ st.appointments ∧ a.doctorId = doctorId ∧
        a.appointmentDate = dt ∧ a.appointmentTime = tm := by
  simp [slotTaken, List.any_eq_true, Bool.and_eq_true, beq_iff_eq, and_assoc]

/-- Claim C1: for every doctor, date and time, at most one stored
appointment occupies the slot; inserting a second appointment into an
occupied (doctorId, date, time) slot fails with the conflict error and
leaves the stored appointments unchanged. -/
theorem appointment_slot_unique (st : ClinicState) (patientId doctorId : Nat)
    (dt tm : String) (statusId : Nat) (notes : Option String) (now : String) :
    (uniqueSlots st.appointments →
      uniqueSlots (run_save_appointment_insert st patientId doctorId dt tm
        statusId notes now).appointments) ∧
    (∀ a ∈ st.appointments,
      a.doctorId = doctorId → a.appointmentDate = dt → a.appointmentTime = tm →
        save_appointment_insert st patientId doctorId dt tm statusId notes now =
          .error .conflictError ∧
        run_save_appointment_insert st patientId doctorId dt tm statusId notes now
          = st) := by
  constructor
  · intro hu
    by_cases h : slotTaken st doctorId dt tm = true
    · simp [run_save_appointment_insert, save_appointment_insert, h]
      exact hu
    · simp only [run_save_appointment_insert, save_appointment_insert, h,
        Bool.false_eq_true, if_false]
      rw [uniqueSlots, List.pairwise_append]
      refine ⟨hu, List.pairwise_singleton _ _, ?_⟩
      intro a ha b hb
      simp only [List.mem_singleton] at hb
      subst hb
      rintro ⟨h1, h2, h3⟩
      exact h ((slotTaken_iff st doctorId dt tm).mpr ⟨a, ha, h1, h2, h3⟩)
  · intro a ha h1 h2 h3
    have ht : slotTaken st doctorId dt tm = true :=
      (slotTaken_iff st doctorId dt tm).mpr ⟨a, ha, h1, h2, h3⟩
    constructor
    · simp [save_appointment_insert, ht]
    · simp [run_save_appointment_insert, save_appointment_insert, ht]

/-- A concrete booked state: doctor 1 holds 2024-06-01 09:00. -/
def apptA : Appointment :=
  { appointmentId := 1, patientId := 1, doctorId := 1,
    appointmentDate := "2024-06-01", appointmentTime := "09:00",
    statusId := 1, notes := none, createdDate := "2024-05-30" }

def bookedState : ClinicState := { ClinicState.empty with appointments := [apptA] }

theorem appointment_slot_unique_witness :
    save_appointment_insert bookedState 2 1 "2024-06-01" "09:00" 1 none
        "2024-05-31" = .error .conflictError ∧
    run_save_appointment_insert bookedState 2 1 "2024-06-01" "09:00" 1 none
        "2024-05-31" = bookedState :=
  (appointment_slot_unique bookedState 2 1 "2024-06-01" "09:00" 1 none
    "2024-05-31").2 apptA (by decide) rfl rfl rfl

/-- Claim C4 (code-bug evidence): with no patients and no doctors stored at
all, the appointment insert still succeeds and stores the row — the code
raises no NotFound classification because the connection never enables
foreign-key enforcement and `save_appointment` performs no lookup. -/
theorem appointment_insert_skips_existence_check :
    ClinicState.empty.patients = [] ∧ ClinicState.empty.doctors = [] ∧
    save_appointment_insert ClinicState.empty 1 1 "2024-06-01" "09:00" 1 none
        "2024-05-31" =
      .ok { ClinicState.empty with appointments :=
              [{ appointmentId := 1, patientId := 1, doctorId := 1,
                 appointmentDate := "2024-06-01", appointmentTime := "09:00",
                 statusId := 1, notes := none, createdDate := "2024-05-31" }] } :=
  ⟨rfl, rfl, rfl⟩

/-! ## Patient code generation (trigger `trg_GeneratePatientCode`) -/

/-- Decimal digit characters of `n`, most significant first, computed with a
fuel argument so that the definition is structural (the fuel only needs to
dominate the digit count; `decDigits` passes `n` itself). -/
def decDigitsAux : Nat → Nat → List Char
  | 0, n => [Nat.digitChar n]
  | fuel+1, n =>
    if n < 10 then [Nat.digitChar n]
    else decDigitsAux fuel (n / 10) ++ [Nat.digitChar (n % 10)]

/-- The decimal representation of `n`, as SQLite renders an INTEGER when it
is concatenated into a string. -/
def decDigits (n : Nat) : List Char := decDigitsAux n n

theorem decDigitsAux_fuel (f : Nat) :
    ∀ g n : Nat, n ≤ f → n ≤ g → decDigitsAux f n = decDigitsAux g n := by
  induction f with
  | zero =>
    intro g n hf _
    have hn : n = 0 := Nat.le_zero.mp hf
    subst hn
    cases g with
    | zero => rfl
    | succ g2 => simp [decDigitsAux]
  | succ f2 ih =>
    intro g n hf hg
    cases g with
    | zero =>
      have hn : n = 0 := Nat.le_zero.mp hg
      subst hn
      simp [decDigitsAux]
    | succ g2 =>
      by_cases h : n < 10
      · simp [decDigitsAux, h]
      · have hdiv : n / 10 < n := Nat.div_lt_self (by omega) (by omega)
        simp only [decDigitsAux, h, if_false]
        rw [ih g2 (n / 10) (by omega) (by omega)]

theorem decDigits_eq (n : Nat) :
    decDigits n = if n < 10 then [Nat.digitChar n]
      else decDigits (n / 10) ++ [Nat.digitChar (n % 10)] := by
  by_cases h : n < 10
  · rw [if_pos h]
    cases n with
    | zero => rfl
    | succ m => simp [decDigits, decDigitsAux, h]
  · rw [if_neg h]
    obtain ⟨m, rfl⟩ : ∃ m, n = m + 1 := ⟨n - 1, by omega⟩
    have hdiv : (m + 1) / 10 < m + 1 := Nat.div_lt_self (by omega) (by omega)
    show decDigitsAux (m + 1) (m + 1) = _
    simp only [decDigitsAux, h, if_false]
    rw [decDigitsAux_fuel m ((m + 1) / 10) ((m + 1) / 10) (by omega) le_rfl]
    rfl

/-- The exactly-`k`-character decimal rendering of `n mod 10^k` (the shape
produced by taking the low digits one by one). -/
def digitsK : Nat → Nat → List Char
  | 0, _ => []
  | k+1, n => digitsK k (n / 10) ++ [Nat.digitChar (n % 10)]

/-- The spec's `zeroPad`: pad on the left with `'0'` up to width `w`; longer
inputs are returned whole (no truncation). -/
def zeroPad (l : List Char) (w : Nat) : List Char :=
  List.replicate (w - l.length) '0' ++ l

/-- SQLite `substr(s, -4, 4)`: the last four characters (every argument the
trigger builds has at least five characters). -/
def substrLast4 (l : List Char) : List Char := l.drop (l.length - 4)

/-- The trigger `trg_GeneratePatientCode` (`create_tables`, lines 155-161):
`'PAT-' || substr('0000' || NEW.PatientID, -4, 4)`. -/
def patientCodeOf (patientId : Nat) : String :=
  "PAT-" ++ String.mk (substrLast4 (List.replicate 4 '0' ++ decDigits patientId))

/-- The code the spec describes: `"PAT-" + zeroPad(id, 4)`, where ids of five
or more digits print whole. -/
def specPatientCode (patientId : Nat) : String :=
  "PAT-" ++ String.mk (zeroPad (decDigits patientId) 4)

theorem digitsK_length (k : Nat) : ∀ n : Nat, (digitsK k n).length = k := by
  induction k with
  | zero => intro n; rfl
  | succ k2 ih => intro n; simp [digitsK, ih]

theorem digitsK_zero (k : Nat) : digitsK k 0 = List.replicate k '0' := by
  induction k with
  | zero => rfl
  | succ k2 ih =>
    show digitsK k2 (0 / 10) ++ [Nat.digitChar (0 % 10)] = _
    norm_num [ih]
    rw [List.replicate_succ']
    rfl

theorem decDigits_length_le (k : Nat) :
    ∀ n : Nat, n < 10 ^ (k + 1) → (decDigits n).length ≤ k + 1 := by
  induction k with
  | zero =>
    intro n h
    have h10 : n < 10 := by simpa using h
    rw [decDigits_eq, if_pos h10]
    simp
  | succ k2 ih =>
    intro n h
    by_cases h10 : n < 10
    · rw [decDigits_eq, if_pos h10]
      simp
    · rw [decDigits_eq, if_neg h10]
      have hdiv : n / 10 < 10 ^ (k2 + 1) := by
        rw [Nat.div_lt_iff_lt_mul (by norm_num)]
        calc n < 10 ^ (k2 + 2) := h
          _ = 10 ^ (k2 + 1) * 10 := by ring
      have hlen := ih (n / 10) hdiv
      simp only [List.length_append, List.length_singleton]
      omega

theorem decDigits_mul_pow_add (k : Nat) :
    ∀ a b : Nat, 0 < a → b < 10 ^ k →
      decDigits (a * 10 ^ k + b) = decDigits a ++ digitsK k b := by
  induction k with
  | zero =>
    intro a b _ hb
    have hb0 : b = 0 := by omega
    subst hb0
    simp [digitsK]
  | succ k2 ih =>
    intro a b ha hb
    have hpow : (10 : Nat) ≤ 10 ^ (k2 + 1) := by
      calc (10 : Nat) = 10 ^ 1 := (pow_one 10).symm
        _ ≤ 10 ^ (k2 + 1) := Nat.pow_le_pow_right (by norm_num) (by omega)
    have hge : ¬(a * 10 ^ (k2 + 1) + b < 10) := by
      push_neg
      calc (10 : Nat) ≤ 10 ^ (k2 + 1) := hpow
        _ ≤ a * 10 ^ (k2 + 1) := Nat.le_mul_of_pos_left _ ha
        _ ≤ a * 10 ^ (k2 + 1) + b := Nat.le_add_right _ _
    have hsplit : a * 10 ^ (k2 + 1) + b = b + 10 * (a * 10 ^ k2) := by ring
    have hdiv : (a * 10 ^ (k2 + 1) + b) / 10 = a * 10 ^ k2 + b / 10 := by
      rw [hsplit, Nat.add_mul_div_left b (a * 10 ^ k2) (by norm_num)]
      omega
    have hmod : (a * 10 ^ (k2 + 1) + b) % 10 = b % 10 := by
      rw [hsplit, Nat.add_mul_mod_self_left]
    have hdivb : b / 10 < 10 ^ k2 := by
      rw [Nat.div_lt_iff_lt_mul (by norm_num)]
      calc b < 10 ^ (k2 + 1) := hb
        _ = 10 ^ k2 * 10 := by ring
    rw [decDigits_eq, if_neg hge, hdiv, hmod, ih a (b / 10) ha hdivb]
    show _ = decDigits a ++ (digitsK k2 (b / 10) ++ [Nat.digitChar (b % 10)])
    rw [List.append_assoc]

theorem digitsK_eq_zeroPad (k : Nat) :
    ∀ b : Nat, b < 10 ^ (k + 1) →
      digitsK (k + 1) b = zeroPad (decDigits b) (k + 1) := by
  induction k with
  | zero =>
    intro b hb
    have h10 : b < 10 := by simpa using hb
    have hb0 : b / 10 = 0 := Nat.div_eq_of_lt h10
    show digitsK 0 (b / 10) ++ [Nat.digitChar (b % 10)] = _
    rw [hb0, Nat.mod_eq_of_lt h10]
    have hd : decDigits b = [Nat.digitChar b] := by
      rw [decDigits_eq, if_pos h10]
    rw [hd]
    rfl
  | succ k2 ih =>
    intro b hb
    by_cases h10 : b < 10
    · have hb0 : b / 10 = 0 := Nat.div_eq_of_lt h10
      have hd : decDigits b = [Nat.digitChar b] := by
        rw [decDigits_eq, if_pos h10]
      show digitsK (k2 + 1) (b / 10) ++ [Nat.digitChar (b % 10)] = _
      rw [hb0, digitsK_zero, Nat.mod_eq_of_lt h10, hd]
      simp [zeroPad]
    · have hd : decDigits b = decDigits (b / 10) ++ [Nat.digitChar (b % 10)] := by
        rw [decDigits_eq, if_neg h10]
      have hdivb : b / 10 < 10 ^ (k2 + 1) := by
        rw [Nat.div_lt_iff_lt_mul (by norm_num)]
        calc b < 10 ^ (k2 + 2) := hb
          _ = 10 ^ (k2 + 1) * 10 := by ring
      show digitsK (k2 + 1) (b / 10) ++ [Nat.digitChar (b % 10)] = _
      rw [ih (b / 10) hdivb, hd]
      simp only [zeroPad, List.length_append, List.length_singleton,
        List.append_assoc]
      have hw : k2 + 1 + 1 - ((decDigits (b / 10)).length + 1)
          = k2 + 1 - (decDigits (b / 10)).length := by omega
      rw [hw]

theorem substrLast4_append_of_length (l m : List Char) (hm : m.length = 4) :
    substrLast4 (l ++ m) = m := by
  simp only [substrLast4, List.length_append, hm]
  have h4 : l.length + 4 - 4 = l.length := by omega
  rw [h4, List.drop_left]

/-- The trigger truncates: for every id `n` the stored code is
`"PAT-"` followed by the last four decimal digits of `n`, zero padded. -/
theorem patientCodeOf_eq (n : Nat) :
    patientCodeOf n = "PAT-" ++ String.mk (zeroPad (decDigits (n % 10000)) 4) := by
  rw [patientCodeOf]
  congr 1
  congr 1
  by_cases hn : n < 10000
  · have hmod : n % 10000 = n := Nat.mod_eq_of_lt hn
    have hL : (decDigits n).length ≤ 4 := by
      have := decDigits_length_le 3 n (by norm_num; omega)
      omega
    rw [hmod]
    simp only [substrLast4, zeroPad, List.length_append, List.length_replicate]
    have h4 : 4 + (decDigits n).length - 4 = (decDigits n).length := by omega
    rw [h4, List.drop_append_eq_append_drop, List.drop_replicate,
      List.length_replicate]
    have h0 : (decDigits n).length - 4 = 0 := by omega
    rw [h0, List.drop_zero]
  · have hq : 0 < n / 10000 := Nat.div_pos (by omega) (by norm_num)
    have hb : n % 10000 < 10 ^ 4 := by
      have := Nat.mod_lt n (show 0 < 10000 by norm_num)
      norm_num
      omega
    have hd : decDigits n = decDigits (n / 10000) ++ digitsK 4 (n % 10000) := by
      have hsum : n = n / 10000 * 10 ^ 4 + n % 10000 := by
        have hdm := Nat.div_add_mod n 10000
        norm_num
        omega
      calc decDigits n
          = decDigits (n / 10000 * 10 ^ 4 + n % 10000) := by rw [← hsum]
        _ = decDigits (n / 10000) ++ digitsK 4 (n % 10000) :=
            decDigits_mul_pow_add 4 (n / 10000) (n % 10000) hq hb
    rw [hd, ← List.append_assoc,
      substrLast4_append_of_length _ _ (digitsK_length 4 (n % 10000))]
    exact digitsK_eq_zeroPad 3 (n % 10000) (by norm_num; omega)

/-- The form fields `save_patient` collects (`data` dict, lines 632-643). -/
structure PatientInput where
  first_name : String
  last_name : String
  dob : String
  gender : String
  blood_group : Option String
  phone : Option String
  email : Option String
  address : Option String
  emergency_contact : Option String
  emergency_phone : Option String
deriving DecidableEq

/-- Embedding of `PatientManagementFrame.save_patient`, insert branch (lines 657-666),
fused with the `AFTER INSERT` trigger, which runs inside the same
transaction: the committed row already carries its generated code. -/
def save_patient_insert (st : ClinicState) (inp : PatientInput) (now : String) :
    ClinicState :=
  { st with patients := st.patients ++
      [{ patientId := nextPatientId st,
         patientCode := some (patientCodeOf (nextPatientId st)),
         firstName := inp.first_name, lastName := inp.last_name,
         dateOfBirth := inp.dob, gender := inp.gender,
         bloodGroup := inp.blood_group, phoneNumber := inp.phone,
         email := inp.email, address := inp.address,
         emergencyContactName := inp.emergency_contact,
         emergencyContactPhone := inp.emergency_phone,
         isActive := true, createdDate := now, modifiedDate := none }] }

/-- Embedding of `save_patient`, update branch (lines 647-656): rewrites the demographic
columns and `ModifiedDate`; `PatientCode` is not in the SET list and the
trigger only fires on INSERT. -/
def updatePatientRow (p : Patient) (inp : PatientInput) (now : String) : Patient :=
  { p with
    firstName := inp.first_name
    lastName := inp.last_name
    dateOfBirth := inp.dob
    gender := inp.gender
    bloodGroup := inp.blood_group
    phoneNumber := inp.phone
    email := inp.email
    address := inp.address
    emergencyContactName := inp.emergency_contact
    emergencyContactPhone := inp.emergency_phone
    modifiedDate := some now }

def save_patient_update (st : ClinicState) (pid : Nat) (inp : PatientInput)
    (now : String) : ClinicState :=
  { st with patients := st.patients.map fun p =>
      if p.patientId == pid then updatePatientRow p inp now else p }

/-- Claim C2 (amended): the trigger assigns
`"PAT-" + zeroPad(id mod 10000, 4)` — ids below 10000 get the claimed
zero-padded code, ids of five or more digits are truncated to their last
four digits.  The code is assigned with the created row itself, and the
update path never changes any stored code. -/
theorem patient_code_assignment (n : Nat) (st : ClinicState)
    (inp : PatientInput) (pid : Nat) (now : String) :
    patientCodeOf n = "PAT-" ++ String.mk (zeroPad (decDigits (n % 10000)) 4) ∧
    (save_patient_insert st inp now).patients.map Patient.patientCode =
      st.patients.map Patient.patientCode ++
        [some (patientCodeOf (nextPatientId st))] ∧
    (save_patient_update st pid inp now).patients.map Patient.patientCode =
      st.patients.map Patient.patientCode := by
  refine ⟨patientCodeOf_eq n, by simp [save_patient_insert], ?_⟩
  simp only [save_patient_update, List.map_map]
  apply List.map_congr_left
  intro p _
  by_cases h : p.patientId = pid <;> simp [beq_iff_eq, h, updatePatientRow]

def patient9999 : Patient :=
  { patientId := 9999, patientCode := some "PAT-9999", firstName := "Jo",
    lastName := "Doe", dateOfBirth := "1990-01-01", gender := "Other",
    bloodGroup := none, phoneNumber := none, email := none, address := none,
    emergencyContactName := none, emergencyContactPhone := none,
    isActive := true, createdDate := "2024-01-01", modifiedDate := none }

def stateAt9999 : ClinicState :=
  { ClinicState.empty with patients := [patient9999] }

def sampleInput : PatientInput :=
  ⟨"New", "Person", "1991-02-03", "Female", none, none, none, none, none, none⟩

/-- Claim C2 counterexample: the patient created with sequential id 10000
receives code "PAT-0000" — the trigger keeps only the last four digits —
while the claim requires "PAT-10000" (all digits, no truncation). -/
theorem patient_code_truncation_cx :
    nextPatientId stateAt9999 = 10000 ∧
    (save_patient_insert stateAt9999 sampleInput "2024-06-01").patients.map
        Patient.patientCode = [some "PAT-9999", some "PAT-0000"] ∧
    specPatientCode 10000 = "PAT-10000" ∧
    patientCodeOf 10000 ≠ specPatientCode 10000 := by
  decide

/-! ## Ledger operations (`BillingManagementFrame`, `BillItemDialog`) -/

def find_bill (st : ClinicState) (bid : Nat) : Option Bill :=
  st.bills.find? fun b => b.billId == bid

/-- Spec section 4.3: `Balance(bill) = total − paid`, never clamped. -/
def balance (b : Bill) : Int := b.totalAmount - b.paidAmount

/-- Embedding of `BillItemDialog.add_item` (lines 1791-1822).  The dialog validation
rejects an empty service type or description and any `quantity <= 0 or
unit_price <= 0` (note: `<= 0`, so a zero price is rejected too) before any
INSERT runs; otherwise one `BillItems` row is inserted.  `ref_id` models the
optional reference field, `some r` meaning the field holds the integer `r`;
it is consulted only when the service type is exactly "Medicine" or exactly
"Test".  The stored row satisfies the schema CHECKs, and the `BillID`
foreign key is unenforced (no pragma), so the insert itself cannot fail. -/
def add_item (st : ClinicState) (bill_id : Nat) (service_type description : String)
    (quantity unit_price : Int) (ref_id : Option Int) : Except DbError ClinicState :=
  if service_type = "" ∨ description = "" ∨ quantity ≤ 0 ∨ unit_price ≤ 0 then
    .error (.validationError
      "All fields except reference ID are required and must be positive")
  else
    let med_id : Option Int :=
      match ref_id with
      | some r => if service_type = "Medicine" then some r else none
      | none => none
    let test_id : Option Int :=
      match ref_id with
      | some r => if service_type = "Test" then some r else none
      | none => none
    .ok { st with billItems := st.billItems ++
            [{ billItemId := nextBillItemId st, billId := bill_id,
               serviceType := service_type, description := description,
               quantity := quantity, unitPrice := unit_price,
               medicineId := med_id, testId := test_id }] }

/-- Observable database after the dialog's Add button: a rejected input
returns before any statement, so nothing changes. -/
def run_add_item (st : ClinicState) (bill_id : Nat)
    (service_type description : String) (quantity unit_price : Int)
    (ref_id : Option Int) : ClinicState :=
  match add_item st bill_id service_type description quantity unit_price ref_id with
  | .ok st2 => st2
  | .error _ => st

/-- Embedding of `BillingManagementFrame.delete_bill` (lines 1714-1730):
`DELETE FROM Bills WHERE BillID=?` and nothing else — no statement touches
`BillItems`, and the schema declares no ON DELETE action. -/
def delete_bill (st : ClinicState) (bill_id : Nat) : ClinicState :=
  { st with bills := st.bills.filter fun b => b.billId != bill_id }

/-- Claim C7: a successful `add_item` appends exactly one `BillItems` row
and leaves the `Bills` table untouched, so every stored bill keeps its
total, paid amount, status and method, and every balance is unchanged. -/
theorem add_item_preserves_bill (st : ClinicState) (bill_id : Nat)
    (service_type description : String) (quantity unit_price : Int)
    (ref_id : Option Int) (st2 : ClinicState)
    (h : add_item st bill_id service_type description quantity unit_price ref_id
      = .ok st2) :
    st2.bills = st.bills ∧
    (∃ it : BillItem, st2.billItems = st.billItems ++ [it]) ∧
    (∀ bid, find_bill st2 bid = find_bill st bid) ∧
    (∀ bid, (find_bill st2 bid).map balance = (find_bill st bid).map balance) := by
  unfold add_item at h
  by_cases hc : service_type = "" ∨ description = "" ∨ quantity ≤ 0 ∨ unit_price ≤ 0
  · rw [if_pos hc] at h
    simp at h
  · rw [if_neg hc] at h
    simp only [Except.ok.injEq] at h
    subst h
    exact ⟨rfl, ⟨_, rfl⟩, fun _ => rfl, fun _ => rfl⟩

def bill1 : Bill :=
  { billId := 1, appointmentId := some 1, admissionId := none,
    billDate := "2024-06-01", totalAmount := 5000, paymentStatus := "Unpaid",
    paymentMethod := some "Cash", paidAmount := 0, createdBy := some 1 }

def billState : ClinicState := { ClinicState.empty with bills := [bill1] }

def billState2 : ClinicState :=
  { billState with billItems :=
      [{ billItemId := 1, billId := 1, serviceType := "Consultation",
         description := "Checkup", quantity := 1, unitPrice := 500,
         medicineId := none, testId := none }] }

theorem add_item_preserves_bill_witness :
    billState2.bills = billState.bills ∧
    find_bill billState2 1 = find_bill billState 1 ∧
    (find_bill billState2 1).map balance = (find_bill billState 1).map balance := by
  have h := add_item_preserves_bill billState 1 "Consultation" "Checkup" 1 500
    none billState2 rfl
  exact ⟨h.1, h.2.2.1 1, h.2.2.2 1⟩

/-- Claim C8 counterexample: the input ("Consultation", "Checkup",
quantity 1, unit price 0) satisfies the claim's acceptance condition
(`unitPrice >= 0`), yet `add_item` rejects it — the guard reads
`unit_price <= 0` — and stores nothing. -/
theorem add_item_zero_price_cx :
    add_item ClinicState.empty 1 "Consultation" "Checkup" 1 0 none =
      .error (.validationError
        "All fields except reference ID are required and must be positive") ∧
    run_add_item ClinicState.empty 1 "Consultation" "Checkup" 1 0 none =
      ClinicState.empty :=
  ⟨rfl, rfl⟩

/-- Claim C8 (amended): `add_item` accepts an input exactly when the service
type and description are non-empty and quantity and unit price are strictly
positive — a zero unit price is rejected, unlike the schema CHECK
`UnitPrice >= 0` — and any rejected input leaves the store unchanged. -/
theorem add_item_validation (st : ClinicState) (bill_id : Nat)
    (service_type description : String) (quantity unit_price : Int)
    (ref_id : Option Int) :
    ((∃ st2, add_item st bill_id service_type description quantity unit_price
        ref_id = .ok st2) ↔
      (service_type ≠ "" ∧ description ≠ "" ∧ 0 < quantity ∧ 0 < unit_price)) ∧
    (∀ e, add_item st bill_id service_type description quantity unit_price
        ref_id = .error e →
      run_add_item st bill_id service_type description quantity unit_price
        ref_id = st) := by
  constructor
  · constructor
    · rintro ⟨st2, h⟩
      unfold add_item at h
      by_cases hc : service_type = "" ∨ description = "" ∨ quantity ≤ 0 ∨
          unit_price ≤ 0
      · rw [if_pos hc] at h
        simp at h
      · push_neg at hc
        exact ⟨hc.1, hc.2.1, by omega, by omega⟩
    · rintro ⟨h1, h2, h3, h4⟩
      unfold add_item
      rw [if_neg (by push_neg; exact ⟨h1, h2, by omega, by omega⟩)]
      exact ⟨_, rfl⟩
  · intro e he
    simp [run_add_item, he]

theorem add_item_validation_witness :
    run_add_item ClinicState.empty 1 "Consultation" "Checkup" 1 0 none =
      ClinicState.empty := by
  have h := add_item_validation ClinicState.empty 1 "Consultation" "Checkup" 1 0
    none
  exact h.2 (.validationError
    "All fields except reference ID are required and must be positive") rfl

/-- Claim C9: `delete_bill` removes the bill row itself and does not
cascade: every `BillItems` row, in particular every row referencing the
deleted bill, is still stored afterwards (orphaned). -/
theorem delete_bill_orphans_items (st : ClinicState) (b : Bill)
    (_hb : b ∈ st.bills) :
    (∀ b2 ∈ (delete_bill st b.billId).bills, b2.billId ≠ b.billId) ∧
    b ∉ (delete_bill st b.billId).bills ∧
    (delete_bill st b.billId).billItems = st.billItems ∧
    (∀ it ∈ st.billItems, it.billId = b.billId →
      it ∈ (delete_bill st b.billId).billItems) := by
  have hall : ∀ b2 ∈ (delete_bill st b.billId).bills, b2.billId ≠ b.billId := by
    intro b2 h2
    simp only [delete_bill, List.mem_filter, bne_iff_ne, ne_eq] at h2
    exact h2.2
  refine ⟨hall, ?_, rfl, ?_⟩
  · intro hmem
    exact hall b hmem rfl
  · intro it hit _
    exact hit

def orphanItem : BillItem :=
  { billItemId := 1, billId := 1, serviceType := "Consultation",
    description := "Checkup", quantity := 1, unitPrice := 500,
    medicineId := none, testId := none }

def billStateWithItem : ClinicState :=
  { billState with billItems := [orphanItem] }

theorem delete_bill_orphans_items_witness :
    bill1 ∉ (delete_bill billStateWithItem bill1.billId).bills ∧
    (delete_bill billStateWithItem bill1.billId).billItems =
      billStateWithItem.billItems := by
  have h := delete_bill_orphans_items billStateWithItem bill1 (by decide)
  exact ⟨h.2.1, h.2.2.1⟩

/-- Claim C10: the stored bill item of a successful `add_item` call carries
at most one catalog reference: the medicine id is filled only when the
service type is exactly "Medicine", the test id only when it is exactly
"Test", and a supplied reference is silently dropped (both fields null) for
every other service type. -/
theorem add_item_ref_exclusive (st : ClinicState) (bill_id : Nat)
    (service_type description : String) (quantity unit_price : Int)
    (ref_id : Option Int) (st2 : ClinicState)
    (h : add_item st bill_id service_type description quantity unit_price ref_id
      = .ok st2) :
    ∃ it : BillItem, st2.billItems = st.billItems ++ [it] ∧
      (it.medicineId = none ∨ it.testId = none) ∧
      (it.medicineId ≠ none → service_type = "Medicine" ∧ it.medicineId = ref_id) ∧
      (it.testId ≠ none → service_type = "Test" ∧ it.testId = ref_id) ∧
      (service_type ≠ "Medicine" → service_type ≠ "Test" →
        it.medicineId = none ∧ it.testId = none) := by
  unfold add_item at h
  by_cases hc : service_type = "" ∨ description = "" ∨ quantity ≤ 0 ∨
      unit_price ≤ 0
  · rw [if_pos hc] at h
    simp at h
  · rw [if_neg hc] at h
    simp only [Except.ok.injEq] at h
    subst h
    rcases ref_id with _ | r
    · refine ⟨_, rfl, ?_, ?_, ?_, ?_⟩ <;> simp
    · by_cases hm : service_type = "Medicine"
      · subst hm
        refine ⟨_, rfl, ?_, ?_, ?_, ?_⟩ <;> simp
      · by_cases htt : service_type = "Test"
        · subst htt
          refine ⟨_, rfl, ?_, ?_, ?_, ?_⟩ <;> simp
        · refine ⟨_, rfl, ?_, ?_, ?_, ?_⟩ <;> simp [hm, htt]

def consultItem : BillItem :=
  { billItemId := 1, billId := 1, serviceType := "Consultation",
    description := "Checkup", quantity := 1, unitPrice := 500,
    medicineId := none, testId := none }

def consultState2 : ClinicState :=
  { billState with billItems := [consultItem] }

theorem add_item_ref_exclusive_witness :
    consultState2.billItems = billState.billItems ++ [consultItem] ∧
    consultItem.medicineId = none ∧ consultItem.testId = none := by
  obtain ⟨it, h1, -, -, -, h5⟩ := add_item_ref_exclusive billState 1
    "Consultation" "Checkup" 1 500 (some 7) consultState2 rfl
  have h2 : consultItem = it := by
    simpa [consultState2, billState, ClinicState.empty] using h1
  subst h2
  exact ⟨h1, (h5 (by decide) (by decide)).1, (h5 (by decide) (by decide)).2⟩

/-! ## Bulk transfer (`export_data` / `import_data`) -/

/-- An SQLite cell value as it crosses the JSON boundary. -/
inductive SqlValue where
  | intV : Int → SqlValue
  | textV : String → SqlValue
  | nullV : SqlValue
deriving DecidableEq

/-- A stored row: `cursor.fetchall()` yields plain tuples of cell values. -/
abbrev SqlRow := List SqlValue

/-- A generic relational store, table name to rows, as the transfer code
sees it. -/
structure Store where
  tables : List (String × List SqlRow)
deriving DecidableEq

/-- A row as it appears in the JSON document.  `json.dump` renders a Python
tuple as a JSON array (`arr`); `import_data` can only consume a mapping with
named columns (`obj`), because it calls `row.keys()` and `row.values()`. -/
inductive JsonRow where
  | arr : SqlRow → JsonRow
  | obj : List (String × SqlValue) → JsonRow
deriving DecidableEq

/-- The fixed table list of `ClinicDatabase.export_data` (line 242). -/
def exportTables : List String :=
  ["Users", "Patients", "Doctors", "Appointments", "Bills", "BillItems",
   "MedicalTests"]

def lookupTable (s : Store) (t : String) : List SqlRow :=
  ((s.tables.find? fun p => p.1 == t).map Prod.snd).getD []

/-- Embedding of `ClinicDatabase.export_data` (lines 238-247): for each listed table,
`SELECT *` then `json.dump` — every row is written as a JSON array because
`cursor.fetchall()` returns tuples. -/
def export_data (s : Store) : List (String × List JsonRow) :=
  exportTables.map fun t => (t, (lookupTable s t).map JsonRow.arr)

/-- Effect of `DELETE FROM t` followed by the row inserts: the table's contents are
replaced wholesale. -/
def setTable (s : Store) (t : String) (rows : List SqlRow) : Store :=
  ⟨s.tables.map fun p => if p.1 == t then (p.1, rows) else p⟩

/-- One table's insert loop of `import_data` (lines 257-260): each row must
answer `row.keys()`/`row.values()`, so a JSON object inserts its values and
a JSON array raises `AttributeError` (modelled as `none`). -/
def importRows : List JsonRow → Option (List SqlRow)
  | [] => some []
  | .obj fields :: rest => (importRows rest).map fun rs => fields.map Prod.snd :: rs
  | .arr _ :: _ => none

def importTables : List (String × List JsonRow) → Store → Option Store
  | [], s => some s
  | (t, rows) :: rest, s =>
    match importRows rows with
    | some rs => importTables rest (setTable s t rs)
    | none => none

/-- Embedding of `ClinicDatabase.import_data` (lines 249-265): replace each table listed
in the document; on success `conn.commit()` and `True`.  Any exception is
caught by the blanket handler, which shows a dialog and returns `False`; the
commit is never reached, so the observable store is unchanged. -/
def import_data (doc : List (String × List JsonRow)) (target : Store) :
    Bool × Store :=
  match importTables doc target with
  | some s2 => (true, s2)
  | none => (false, target)

/-- The empty target store of the round-trip claim: same schema, no rows. -/
def emptyStore : Store := ⟨exportTables.map fun t => (t, [])⟩

/-- A source store holding a single Users row (column order of the schema:
id, username, password hash, first name, last name, email, phone, role,
active flag, created date). -/
def demoStore : Store :=
  ⟨[("Users",
     [[.intV 1, .textV "admin", .textV "hash", .textV "System",
       .textV "Admin", .textV "admin@hospital.com", .textV "1234567890",
       .textV "Admin", .intV 1, .textV "2024-01-01"]]),
    ("Patients", []), ("Doctors", []), ("Appointments", []), ("Bills", []),
    ("BillItems", []), ("MedicalTests", [])]⟩

/-- Claim C3 (code-bug evidence): exporting a store with even one row and
importing the document into the empty target fails — `import_data` returns
`False` and the target still holds no data — because export writes rows as
JSON arrays while import requires objects with named columns. -/
theorem export_import_roundtrip_fails :
    (import_data (export_data demoStore) emptyStore) = (false, emptyStore) ∧
    lookupTable demoStore "Users" ≠ [] := by
  exact ⟨rfl, by decide⟩

/-! ## Startup sample data (`insert_sample_data`) -/

/-- The tables `ClinicDatabase.create_tables` actually creates
(lines 19-162). -/
def created_tables : List String :=
  ["Users", "Specializations", "Departments", "Doctors", "Patients",
   "AppointmentStatuses", "Appointments", "Bills", "BillItems",
   "MedicalTests"]

/-- The tables `insert_sample_data` inserts into, in statement order
(lines 165-232). -/
def sample_insert_tables : List String :=
  ["Users", "Specializations", "Departments", "AppointmentStatuses",
   "Doctors", "MedicineCategories"]

/-- Run the sample inserts in order; a statement against a table that was
never created raises `sqlite3.OperationalError`, and `insert_sample_data`
has no handler, so the first such error escapes. -/
def run_inserts (existing : List String) : List String → Except DbError Unit
  | [] => .ok ()
  | t :: ts =>
    if existing.contains t then run_inserts existing ts
    else .error (.operationalError ("no such table: " ++ t))

/-- Embedding of `insert_sample_data` (lines 165-232): returns immediately when `Users`
already has rows, otherwise runs every insert batch. -/
def insert_sample_data (usersCount : Nat) : Except DbError Unit :=
  if usersCount > 0 then .ok ()
  else run_inserts created_tables sample_insert_tables

/-- Embedding of `ClinicDatabase.__init__` (lines 14-17) on a fresh database file:
`create_tables` then `insert_sample_data` with an empty `Users` table;
no try/except surrounds either call. -/
def clinic_init : Except DbError Unit := insert_sample_data 0

/-- Claim C5 (code-bug evidence): first launch on a fresh database raises an
uncaught `sqlite3.OperationalError` — `insert_sample_data` inserts into
`MedicineCategories`, a table `create_tables` never creates — so the storage
failure escapes the operation boundary unclassified and terminates startup. -/
theorem clinic_init_crashes :
    clinic_init = .error (.operationalError "no such table: MedicineCategories") ∧
    "MedicineCategories" ∈ sample_insert_tables ∧
    "MedicineCategories" ∉ created_tables := by
  refine ⟨rfl, by decide, by decide⟩

/-! ## Payment status derivation -/

/-- The three `PaymentStatus` values of the `Bills` CHECK constraint. -/
inductive PaymentStatusKind where
  | Unpaid : PaymentStatusKind
  | PartiallyPaid : PaymentStatusKind
  | Paid : PaymentStatusKind
deriving DecidableEq

/-- Modelled from the spec: `DerivedStatus(total, paid)` — the pure payment
status derivation required by spec sections 4.3 and 8.  `src/frontend.py`
contains no such function (the forms take the status from the user), so this
definition follows the spec's test vectors: nothing paid is Unpaid, a
payment strictly below the total is PartiallyPaid, and paying the total or
more (overpayment) is Paid. -/
def DerivedStatus (total paid : Int) : PaymentStatusKind :=
  if paid ≤ 0 then .Unpaid
  else if paid < total then .PartiallyPaid
  else .Paid

/-- Claim C6: the four specified vectors of `DerivedStatus`, including
overpayment yielding Paid. -/
theorem derivedStatus_vectors :
    DerivedStatus 100 0 = .Unpaid ∧
    DerivedStatus 100 40 = .PartiallyPaid ∧
    DerivedStatus 100 100 = .Paid ∧
    DerivedStatus 100 150 = .Paid := by
  decide

end Clinic
